import Mathlib

/-!
Verification of the email-to-ticket pipeline in `src/email_parser.py`.

The Python program is embedded shallowly: pure transformations become Lean
functions with the same names, and every interaction with the outside world
(IMAP fetch, the remote analysis/drafting HTTP calls, SMTP delivery, operator
console input) is supplied as an explicit outcome value in an `Env` record, so
that the control flow of `main` can be replayed as a total function. Fallible
Python code (exceptions) is modelled with `Except`.
-/

namespace EmailParser

/-- A single MIME part as seen by `msg.walk()`: its content type and its
decoded payload (the effect of `get_payload(decode=True).decode(errors="ignore")`
is abstracted into the stored string). -/
structure MsgPart where
  contentType : String
  payload : String
deriving Repr, DecidableEq

/-- The body structure of a raw message: `msg.is_multipart()` distinguishes the
two cases; a multipart message contributes the flattened sequence of parts that
`msg.walk()` yields (non-text parts, including the multipart container itself,
simply match neither branch of the scan). -/
inductive MsgBody where
  | single (contentType : String) (payload : String)
  | multi (parts : List MsgPart)
deriving Repr, DecidableEq

/-- A raw mailbox message as `parse_email_content` consumes it.
`subjectHeader = none` models a message without a Subject header: in that case
`msg["Subject"]` is `None` in Python and `decode_header(None)` raises a
`TypeError` (it runs a regex search on its argument). `some s` carries the
already-decoded subject text. `fromHeader` models `msg.get("From")`. -/
structure RawMsg where
  subjectHeader : Option String
  fromHeader : Option String
  body : MsgBody
deriving Repr, DecidableEq

/-- Embeds the part-scanning loop of `parse_email_content`
(src/email_parser.py lines 84-91): walk the parts carrying the current `body`
accumulator; the first `text/plain` part returns immediately (the `break`);
each `text/html` part overwrites the accumulator with its cleaned text and the
scan continues. `cleanHtml` is the out-of-scope HTML-to-text utility
`clean_html`, passed as a parameter. -/
def scanParts (cleanHtml : String → String) : List MsgPart → String → String
  | [], acc => acc
  | q :: qs, acc =>
    if q.contentType == "text/plain" then q.payload
    else if q.contentType == "text/html" then scanParts cleanHtml qs (cleanHtml q.payload)
    else scanParts cleanHtml qs acc

/-- Embeds the body-selection logic of `parse_email_content`
(src/email_parser.py lines 83-97): multipart messages are scanned with
`scanParts` starting from the initial `body = ""`; single-part messages use the
payload directly for `text/plain`, the cleaned payload for `text/html`, and
leave `body` empty otherwise. -/
def extractBody (cleanHtml : String → String) : MsgBody → String
  | MsgBody.multi parts => scanParts cleanHtml parts ""
  | MsgBody.single ct payload =>
    if ct == "text/plain" then payload
    else if ct == "text/html" then cleanHtml payload
    else ""

/-- Embeds `parse_email_content` (src/email_parser.py lines 76-99): subject
decoding raises when the Subject header is absent (`decode_header(None)` is a
`TypeError`, uncaught in the function), otherwise the function returns the
subject, the verbatim From header and the selected body. -/
def parse_email_content (cleanHtml : String → String) (msg : RawMsg) :
    Except String (String × Option String × String) :=
  match msg.subjectHeader with
  | none => Except.error "TypeError: decode_header received None"
  | some s => Except.ok (s, msg.fromHeader, extractBody cleanHtml msg.body)

/-- The shape of the JSON object decoded from the model content in
`analyze_email_with_xai`: `json.loads` may produce an object missing any of the
three expected keys, so every field is optional. -/
structure JsonDict where
  urgency : Option String
  reasoning : Option String
  summary : Option String
deriving Repr, DecidableEq

/-- Embeds `analyze_email_with_xai` (src/email_parser.py lines 101-160).
`callOutcome` is the observable outcome of the guarded region: `Except.error e`
when any exception escapes the HTTP call / status check / envelope access (the
outer `except Exception` path, `e` = `str(e)`), `Except.ok none` when the call
succeeded but `json.loads(content)` raised `JSONDecodeError`, and
`Except.ok (some d)` when the embedded payload decoded to the object `d`.
`subject` and `body` only shape the request prompt, mirroring the source
signature. -/
def analyze_email_with_xai (subject body : String)
    (callOutcome : Except String (Option JsonDict)) : JsonDict :=
  match callOutcome with
  | Except.error e =>
    { urgency := some "Unknown"
      reasoning := some ("API error: " ++ e)
      summary := some "Unable to summarize due to API failure" }
  | Except.ok none =>
    { urgency := some "Unknown"
      reasoning := some "Failed to parse API response"
      summary := some "Unable to summarize due to invalid response format" }
  | Except.ok (some d) => d

/-- Python ASCII whitespace, the character class `str.strip()` removes. -/
def isStripWs (c : Char) : Bool :=
  c == ' ' || c == '\t' || c == '\n' || c == '\r' || c == '\x0b' || c == '\x0c'

/-- Executable model of Python `str.strip()` with no arguments: drop leading
and trailing whitespace. -/
def pyStrip (s : String) : String :=
  String.mk (((s.data.dropWhile isStripWs).reverse.dropWhile isStripWs).reverse)

/-- The fixed fallback reply of `generate_response_with_xai`
(src/email_parser.py line 209). -/
def fallbackResponse : String := "Thank you for your email. I will get back to you soon."

/-- Embeds `generate_response_with_xai` (src/email_parser.py lines 162-209).
`callOutcome` is `Except.ok content` when the guarded region reached
`result["choices"][0]["message"]["content"]`, and `Except.error e` when any
exception was caught. On success the code returns `content.strip()`, modelled
by `pyStrip`; on failure it returns the fixed fallback. -/
def generate_response_with_xai (subject body : String)
    (callOutcome : Except String String) : String :=
  match callOutcome with
  | Except.error _ => fallbackResponse
  | Except.ok content => pyStrip content

/-- Embeds `send_email` (src/email_parser.py lines 211-228). The whole SMTP
conversation is guarded by `try/except Exception`, so the function always
returns normally; the Bool records whether delivery actually happened
(`Except.error` = some exception was raised and swallowed). -/
def send_email (delivery : Except String Unit) : Bool :=
  match delivery with
  | Except.ok _ => true
  | Except.error _ => false

/-- The ticket dict built in `main` (src/email_parser.py lines 251-259). -/
structure Ticket where
  email_id : String
  subject : String
  sender : Option String
  urgency : String
  reasoning : String
  summary : String
  response : String
deriving Repr, DecidableEq

/-- Embeds the ticket construction of `main` (src/email_parser.py lines
251-259): the three analysis fields are read with `dict.get` and its default,
modelled by `Option.getD` on the decoded object. -/
def mkTicket (email_id subject : String) (sender : Option String)
    (analysis : JsonDict) (response : String) : Ticket :=
  { email_id := email_id
    subject := subject
    sender := sender
    urgency := analysis.urgency.getD "Unknown"
    reasoning := analysis.reasoning.getD "No reasoning provided"
    summary := analysis.summary.getD "No summary available"
    response := response }

/-- Embeds the sort key of `main` (src/email_parser.py lines 263-264):
`urgency_order.get(x["urgency"], 4)` over the dict
High 1, Medium 2, Low 3, Unknown 4, with default 4 for any other string. -/
def urgency_order (u : String) : Nat :=
  if u = "High" then 1
  else if u = "Medium" then 2
  else if u = "Low" then 3
  else if u = "Unknown" then 4
  else 4

/-- Stable insertion of a ticket in front of the first element whose rank is
not smaller. Together with `sortTickets` this is extensionally the behaviour
of `tickets.sort(key=...)` (src/email_parser.py line 264): Python guarantees a
stable sort by the key, and a stable sort by a total key is unique, so the
stable insertion sort denotes the same function on every input. -/
def insertTicket (t : Ticket) : List Ticket → List Ticket
  | [] => [t]
  | u :: us =>
    if urgency_order t.urgency ≤ urgency_order u.urgency then t :: u :: us
    else u :: insertTicket t us

/-- Stable sort of the ticket batch by urgency rank; see `insertTicket`. -/
def sortTickets : List Ticket → List Ticket
  | [] => []
  | t :: ts => insertTicket t (sortTickets ts)

/-- The operator input consumed for one ticket in the review loop, after the
re-prompting has produced valid y/n answers (src/email_parser.py lines
275-288): whether to edit, the replacement text, and whether to send. -/
structure ReviewDecision where
  editChoice : Bool
  editText : String
  sendChoice : Bool
deriving Repr, DecidableEq

/-- The observable effects of reviewing one ticket. -/
structure TicketEffect where
  finalResponse : String
  sendAttempted : Bool
  delivered : Bool
  markedRead : Bool
deriving Repr, DecidableEq

/-- Embeds the per-ticket body of the review loop in `main`
(src/email_parser.py lines 275-296): an edit replaces the response wholesale;
on "send" the code calls `send_email` (which swallows delivery errors) and then
unconditionally executes `mail.store(..., "+FLAGS", "\\Seen")`; on "do not
send" nothing happens to the mailbox. -/
def reviewTicket (dec : ReviewDecision) (delivery : Except String Unit)
    (t : Ticket) : TicketEffect :=
  let resp := if dec.editChoice then dec.editText else t.response
  if dec.sendChoice then
    { finalResponse := resp
      sendAttempted := true
      delivered := send_email delivery
      markedRead := true }
  else
    { finalResponse := resp
      sendAttempted := false
      delivered := false
      markedRead := false }

/-- The environment of one run of `main`: the outcome of every external
interaction, indexed where the code indexes it. `connectOutcome` is the result
of the IMAP connect/login/select in `connect_to_email`; `searchOk` models
`status == "OK"` from `mail.search`; `emailIds` is `messages[0].split()`;
`fetch` gives the raw message for an id (or the exception raised by
`mail.fetch` / `email.message_from_bytes`); `analysisCall` and `draftCall` give
the remote-service outcomes for a `(subject, body)` request as described at
`analyze_email_with_xai` and `generate_response_with_xai`; `decision` and
`delivery` give the operator decisions and the SMTP outcome for the i-th
reviewed ticket. -/
structure Env where
  connectOutcome : Except String Unit
  searchOk : Bool
  emailIds : List String
  fetch : String → Except String RawMsg
  analysisCall : String → String → Except String (Option JsonDict)
  draftCall : String → String → Except String String
  decision : Nat → ReviewDecision
  delivery : Nat → Except String Unit

/-- Embeds `connect_to_email` (src/email_parser.py lines 55-66): on any
exception the function logs and calls `sys.exit(1)`, a fatal exit with status
code 1; otherwise the session is available. -/
def connect_to_email (outcome : Except String Unit) : Except Nat Unit :=
  match outcome with
  | Except.error _ => Except.error 1
  | Except.ok _ => Except.ok ()

/-- Embeds one iteration of the ticket-building loop of `main`
(src/email_parser.py lines 244-260): fetch the message, parse it (either step
may raise, and no handler in `main` catches it), then run the two remote
clients (which never raise) and build the ticket. -/
def processMessage (cleanHtml : String → String) (env : Env) (id : String) :
    Except String Ticket :=
  match env.fetch id with
  | Except.error e => Except.error e
  | Except.ok msg =>
    match parse_email_content cleanHtml msg with
    | Except.error e => Except.error e
    | Except.ok (subject, sender, body) =>
      Except.ok (mkTicket id subject sender
        (analyze_email_with_xai subject body (env.analysisCall subject body))
        (generate_response_with_xai subject body (env.draftCall subject body)))

/-- Embeds the ticket-building loop of `main` over the id list: the first
uncaught per-message exception aborts the whole loop. The error carries the
exception text and the number of tickets already built when it struck. -/
def buildTickets (cleanHtml : String → String) (env : Env) :
    List String → Except (String × Nat) (List Ticket)
  | [] => Except.ok []
  | id :: rest =>
    match processMessage cleanHtml env id with
    | Except.error e => Except.error (e, 0)
    | Except.ok t =>
      match buildTickets cleanHtml env rest with
      | Except.error (e, n) => Except.error (e, n + 1)
      | Except.ok ts => Except.ok (t :: ts)

/-- Embeds the review loop of `main` over the sorted batch
(src/email_parser.py lines 266-296), pairing each ticket with the operator
decisions and delivery outcome for its position. -/
def reviewAll (env : Env) (ts : List Ticket) : List TicketEffect :=
  ts.enum.map (fun p => reviewTicket (env.decision p.1) (env.delivery p.1) p.2)

/-- The observable outcome of one run of `main`. `fatalExit` is `sys.exit`
from `connect_to_email`; `crashed` is an exception escaping `main` (carrying
the count of tickets built before the crash and the number of `logout` calls
made, which the code structure fixes at zero because there is no
`try/finally`); `completed` is a normal return, recording whether the
no-unread message was printed, the sorted batch, the review effects, and the
number of `logout` calls. -/
inductive RunOutcome where
  | fatalExit (code : Nat)
  | crashed (err : String) (ticketsBuilt : Nat) (logouts : Nat)
  | completed (noUnreadPrinted : Bool) (tickets : List Ticket)
      (effects : List TicketEffect) (logouts : Nat)
deriving Repr, DecidableEq

/-- Embeds `main` (src/email_parser.py lines 230-299): connect (fatal exit on
failure), search, the early-return no-unread path (`status != "OK" or not
messages[0]`) which logs out once, the ticket-building loop (whose uncaught
exceptions skip the final `logout`), the stable urgency sort, the review loop,
and the final single `logout`. -/
def runMain (cleanHtml : String → String) (env : Env) : RunOutcome :=
  match connect_to_email env.connectOutcome with
  | Except.error code => RunOutcome.fatalExit code
  | Except.ok _ =>
    if !env.searchOk || env.emailIds.isEmpty then
      RunOutcome.completed true [] [] 1
    else
      match buildTickets cleanHtml env env.emailIds with
      | Except.error (e, n) => RunOutcome.crashed e n 0
      | Except.ok tickets =>
        RunOutcome.completed false (sortTickets tickets)
          (reviewAll env (sortTickets tickets)) 1

/-- Whether fetching and parsing the message `id` succeeds in `env`: exactly
the condition under which `processMessage` does not abort. -/
def stepOk (env : Env) (id : String) : Bool :=
  match env.fetch id with
  | Except.error _ => false
  | Except.ok m => m.subjectHeader.isSome

/-- Number of `mail.logout()` calls recorded in an outcome. -/
def logoutCount : RunOutcome → Nat
  | RunOutcome.fatalExit _ => 0
  | RunOutcome.crashed _ _ n => n
  | RunOutcome.completed _ _ _ n => n

/-- The size of the produced batch, when the run completed normally. -/
def ticketCount : RunOutcome → Option Nat
  | RunOutcome.completed _ ts _ _ => some ts.length
  | _ => none

/-- Number of tickets materialised during the run, on every outcome. -/
def ticketsBuiltCount : RunOutcome → Nat
  | RunOutcome.fatalExit _ => 0
  | RunOutcome.crashed _ n _ => n
  | RunOutcome.completed _ ts _ _ => ts.length

/-- Whether the run completed normally. -/
def isCompleted : RunOutcome → Bool
  | RunOutcome.completed _ _ _ _ => true
  | _ => false

/-- The last `text/html` part of a part list, the vocabulary of the
body-selection policy statement ("the last encountered text/html part"). -/
def lastHtml : List MsgPart → Option MsgPart
  | [] => none
  | q :: qs =>
    match lastHtml qs with
    | some r => some r
    | none => if q.contentType == "text/html" then some q else none

/-- Either the cleaned payload of the last html part, or the accumulator when
no html part exists: the value the part scan produces when no plain part is
present. -/
def lastHtmlOr (cleanHtml : String → String) (parts : List MsgPart)
    (acc : String) : String :=
  match lastHtml parts with
  | some p => cleanHtml p.payload
  | none => acc

/- Concrete fixtures used by counterexamples and witnesses. -/

/-- A well-formed single-part plain-text message. -/
def msgPlain : RawMsg :=
  { subjectHeader := some "Hello"
    fromHeader := some "alice@example.com"
    body := MsgBody.single "text/plain" "hi there" }

/-- A message without a Subject header: parsing it raises. -/
def msgNoSubject : RawMsg :=
  { subjectHeader := none
    fromHeader := some "bob@example.com"
    body := MsgBody.single "text/plain" "boom" }

/-- A decision function that declines everything. -/
def declineAll : Nat → ReviewDecision :=
  fun _ => { editChoice := false, editText := "", sendChoice := false }

/-- An environment whose first message fetches fine but cannot be parsed. -/
def envCrash : Env :=
  { connectOutcome := Except.ok ()
    searchOk := true
    emailIds := ["1", "2"]
    fetch := fun id => if id = "1" then Except.ok msgNoSubject else Except.ok msgPlain
    analysisCall := fun _ _ => Except.error "503 Service Unavailable"
    draftCall := fun _ _ => Except.error "503 Service Unavailable"
    decision := declineAll
    delivery := fun _ => Except.ok () }

/-- An environment where every remote analysis and drafting call fails but all
messages fetch and parse fine. -/
def envAllFail : Env :=
  { connectOutcome := Except.ok ()
    searchOk := true
    emailIds := ["1", "2"]
    fetch := fun _ => Except.ok msgPlain
    analysisCall := fun _ _ => Except.error "503 Service Unavailable"
    draftCall := fun _ _ => Except.error "503 Service Unavailable"
    decision := declineAll
    delivery := fun _ => Except.ok () }

/-- An environment with a working mailbox and zero unread messages. -/
def envEmpty : Env :=
  { connectOutcome := Except.ok ()
    searchOk := true
    emailIds := []
    fetch := fun _ => Except.error "unused"
    analysisCall := fun _ _ => Except.error "unused"
    draftCall := fun _ _ => Except.error "unused"
    decision := declineAll
    delivery := fun _ => Except.ok () }

/-- An environment whose IMAP connection fails. -/
def envBadConnect : Env :=
  { connectOutcome := Except.error "login refused"
    searchOk := true
    emailIds := ["1"]
    fetch := fun _ => Except.ok msgPlain
    analysisCall := fun _ _ => Except.error "unused"
    draftCall := fun _ _ => Except.error "unused"
    decision := declineAll
    delivery := fun _ => Except.ok () }

/-- A ticket fixture with a chosen urgency and id. -/
def demoTicket (u : String) (n : String) : Ticket :=
  { email_id := n
    subject := n
    sender := some "alice@example.com"
    urgency := u
    reasoning := "r"
    summary := "s"
    response := "ok" }

/-- A batch with a tie on Low and an unexpected urgency string. -/
def demoBatch : List Ticket :=
  [demoTicket "Low" "1", demoTicket "High" "2",
   demoTicket "Critical" "3", demoTicket "Low" "4"]

/-- A multipart fixture in which an html part precedes the plain part. -/
def demoParts : List MsgPart :=
  [{ contentType := "multipart/alternative", payload := "" },
   { contentType := "text/html", payload := "<b>H</b>" },
   { contentType := "text/plain", payload := "P" }]

/-! Helper lemmas shared by the claim theorems. -/

/-- Every urgency rank is at most 4. -/
theorem urgency_order_le_four (u : String) : urgency_order u ≤ 4 := by
  unfold urgency_order
  repeat' split
  all_goals omega

/-- Membership in an insertion. -/
theorem mem_insertTicket (x t : Ticket) (l : List Ticket)
    (h : x ∈ insertTicket t l) : x = t ∨ x ∈ l := by
  induction l with
  | nil => simpa [insertTicket] using h
  | cons u us ih =>
    simp only [insertTicket] at h
    split at h
    · rcases List.mem_cons.mp h with h1 | h1
      · exact Or.inl h1
      · exact Or.inr h1
    · rcases List.mem_cons.mp h with h1 | h1
      · exact Or.inr (h1 ▸ List.mem_cons_self u us)
      · rcases ih h1 with h2 | h2
        · exact Or.inl h2
        · exact Or.inr (List.mem_cons_of_mem u h2)

/-- Inserting into a rank-ordered list keeps it rank-ordered. -/
theorem insertTicket_pairwise (t : Ticket) (l : List Ticket)
    (h : l.Pairwise (fun a b => urgency_order a.urgency ≤ urgency_order b.urgency)) :
    (insertTicket t l).Pairwise
      (fun a b => urgency_order a.urgency ≤ urgency_order b.urgency) := by
  induction l with
  | nil => simp [insertTicket]
  | cons u us ih =>
    rcases List.pairwise_cons.mp h with ⟨hu, hus⟩
    simp only [insertTicket]
    split
    · rename_i hc
      refine List.pairwise_cons.mpr ⟨?_, h⟩
      intro b hb
      rcases List.mem_cons.mp hb with hb | hb
      · subst hb; exact hc
      · exact le_trans hc (hu b hb)
    · rename_i hc
      push_neg at hc
      refine List.pairwise_cons.mpr ⟨?_, ih hus⟩
      intro b hb
      rcases mem_insertTicket b t us hb with hb | hb
      · subst hb; exact le_of_lt hc
      · exact hu b hb

/-- The sorted batch is rank-ordered. -/
theorem sortTickets_pairwise (l : List Ticket) :
    (sortTickets l).Pairwise
      (fun a b => urgency_order a.urgency ≤ urgency_order b.urgency) := by
  induction l with
  | nil => simp [sortTickets]
  | cons t ts ih => exact insertTicket_pairwise t (sortTickets ts) ih

/-- Insertion adds exactly one element. -/
theorem length_insertTicket (t : Ticket) (l : List Ticket) :
    (insertTicket t l).length = l.length + 1 := by
  induction l with
  | nil => rfl
  | cons u us ih =>
    simp only [insertTicket]
    split
    · rfl
    · simp [ih]

/-- Sorting preserves the batch size. -/
theorem length_sortTickets (l : List Ticket) :
    (sortTickets l).length = l.length := by
  induction l with
  | nil => rfl
  | cons t ts ih =>
    simp only [sortTickets]
    rw [length_insertTicket, ih]
    rfl

/-- Filtering one urgency class commutes with insertion: an inserted ticket of
that urgency lands in front of none of its classmates (they share its rank, so
none is skipped), and a ticket of another urgency is invisible to the class. -/
theorem filter_insertTicket (u : String) (t : Ticket) (l : List Ticket) :
    (insertTicket t l).filter (fun x => x.urgency == u)
      = if t.urgency == u then t :: l.filter (fun x => x.urgency == u)
        else l.filter (fun x => x.urgency == u) := by
  induction l with
  | nil =>
    simp only [insertTicket, List.filter_cons, List.filter_nil]
  | cons v vs ih =>
    simp only [insertTicket]
    split
    · rename_i hc
      simp only [List.filter_cons]
    · rename_i hc
      push_neg at hc
      rw [List.filter_cons, ih]
      by_cases ht : (t.urgency == u) = true
      · have hv : (v.urgency == u) = false := by
          cases hb : (v.urgency == u) with
          | false => rfl
          | true =>
            exfalso
            have h1 : v.urgency = u := by simpa using hb
            have h2 : t.urgency = u := by simpa using ht
            rw [h1, h2] at hc
            exact lt_irrefl _ hc
        simp [ht, hv, List.filter_cons]
      · simp [ht, List.filter_cons]

/-- Stability of the batch sort, as class preservation: the subsequence of any
fixed urgency is untouched by sorting. -/
theorem filter_sortTickets (u : String) (l : List Ticket) :
    (sortTickets l).filter (fun x => x.urgency == u)
      = l.filter (fun x => x.urgency == u) := by
  induction l with
  | nil => rfl
  | cons t ts ih =>
    simp only [sortTickets]
    rw [filter_insertTicket, ih, List.filter_cons]

/-- If some part is `text/plain`, the scan returns the payload of the first
such part, whatever the accumulator holds. -/
theorem scanParts_find_plain (cleanHtml : String → String) :
    ∀ (parts : List MsgPart) (p : MsgPart) (acc : String),
      parts.find? (fun q => q.contentType == "text/plain") = some p →
      scanParts cleanHtml parts acc = p.payload
  | [], p, acc, h => by simp at h
  | q :: qs, p, acc, h => by
    cases hq : (q.contentType == "text/plain") with
    | true =>
      simp only [List.find?, hq] at h
      have hqp : q = p := by injection h
      subst hqp
      simp only [scanParts]
      rw [if_pos hq]
    | false =>
      simp only [List.find?, hq] at h
      simp only [scanParts]
      rw [if_neg (by simp [hq])]
      split
      · exact scanParts_find_plain cleanHtml qs p _ h
      · exact scanParts_find_plain cleanHtml qs p acc h

/-- When no part is `text/plain`, the scan computes the last-html fallback. -/
theorem scanParts_no_plain (cleanHtml : String → String) :
    ∀ (parts : List MsgPart) (acc : String),
      (∀ q ∈ parts, ¬ q.contentType = "text/plain") →
      scanParts cleanHtml parts acc = lastHtmlOr cleanHtml parts acc
  | [], acc, _ => rfl
  | q :: qs, acc, h => by
    have hq : ¬ q.contentType = "text/plain" := h q (List.mem_cons_self q qs)
    have hqs : ∀ r ∈ qs, ¬ r.contentType = "text/plain" :=
      fun r hr => h r (List.mem_cons_of_mem q hr)
    simp only [scanParts]
    rw [if_neg (by simpa using hq)]
    by_cases hh : (q.contentType == "text/html") = true
    · rw [if_pos hh]
      rw [scanParts_no_plain cleanHtml qs (cleanHtml q.payload) hqs]
      simp only [lastHtmlOr, lastHtml]
      cases hlast : lastHtml qs with
      | some r => rfl
      | none => rw [if_pos hh]
    · rw [if_neg hh]
      rw [scanParts_no_plain cleanHtml qs acc hqs]
      simp only [lastHtmlOr, lastHtml]
      cases hlast : lastHtml qs with
      | some r => rfl
      | none => rw [if_neg hh]

/-- When the message fetches and parses, `processMessage` yields a ticket. -/
theorem processMessage_ok (cleanHtml : String → String) (env : Env) (id : String)
    (hi : stepOk env id = true) :
    ∃ t : Ticket, processMessage cleanHtml env id = Except.ok t := by
  unfold stepOk at hi
  unfold processMessage
  cases hf : env.fetch id with
  | error e => rw [hf] at hi; simp at hi
  | ok m =>
    rw [hf] at hi
    simp only [Option.isSome] at hi
    cases hm : m.subjectHeader with
    | none => rw [hm] at hi; simp at hi
    | some s =>
      simp only [parse_email_content, hm]
      exact ⟨_, rfl⟩

/-- When every message fetches and parses, the building loop returns one
ticket per unread message: analysis and drafting outcomes are arbitrary. -/
theorem buildTickets_ok_length (cleanHtml : String → String) (env : Env) :
    ∀ ids : List String,
      (∀ id ∈ ids, stepOk env id = true) →
      ∃ ts : List Ticket,
        buildTickets cleanHtml env ids = Except.ok ts ∧ ts.length = ids.length
  | [], _ => ⟨[], rfl, rfl⟩
  | i :: is, h => by
    obtain ⟨t, ht⟩ := processMessage_ok cleanHtml env i (h i (List.mem_cons_self i is))
    obtain ⟨ts, hts, hlen⟩ :=
      buildTickets_ok_length cleanHtml env is (fun j hj => h j (List.mem_cons_of_mem i hj))
    refine ⟨t :: ts, ?_, by simp [hlen]⟩
    simp only [buildTickets, ht, hts]

/-- On a run whose per-message fetch/parse steps all succeed, `main` completes
normally with a single logout, and (when the search succeeded) with exactly one
ticket per unread message. -/
theorem runMain_normal (cleanHtml : String → String) (env : Env)
    (hc : env.connectOutcome = Except.ok ())
    (h : ∀ id ∈ env.emailIds, stepOk env id = true) :
    (∃ b ts effs, runMain cleanHtml env = RunOutcome.completed b ts effs 1)
    ∧ (env.searchOk = true →
        ticketCount (runMain cleanHtml env) = some env.emailIds.length) := by
  unfold runMain
  rw [hc]
  simp only [connect_to_email]
  by_cases hcond : (!env.searchOk || env.emailIds.isEmpty) = true
  · rw [if_pos hcond]
    refine ⟨⟨true, [], [], rfl⟩, ?_⟩
    intro hs
    rw [hs] at hcond
    simp only [Bool.not_true, Bool.false_or] at hcond
    have : env.emailIds = [] := List.isEmpty_iff.mp hcond
    simp [ticketCount, this]
  · rw [if_neg hcond]
    obtain ⟨ts, hts, hlen⟩ := buildTickets_ok_length cleanHtml env env.emailIds h
    rw [hts]
    refine ⟨⟨false, _, _, rfl⟩, ?_⟩
    intro _
    simp [ticketCount, length_sortTickets, hlen]

/-! Claim theorems. -/

/-- C1 (counterexample): with the operator choosing to send and the SMTP
delivery failing, the originating message is still marked as read — because
`send_email` swallows the delivery exception and `mail.store(+FLAGS Seen)`
follows unconditionally — refuting "mark-as-read never happens when delivery
fails". -/
theorem C1_counterexample_markRead_despite_delivery_failure :
    (reviewTicket { editChoice := false, editText := "", sendChoice := true }
        (Except.error "connection refused") (demoTicket "High" "1")).markedRead = true
    ∧ send_email (Except.error "connection refused") = false := by
  constructor <;> rfl

/-- C1 (amended): the originating message is marked as read if and only if the
operator chooses to send; the delivery outcome is irrelevant because
`send_email` catches every exception, and mark-as-read never happens when the
operator declines. -/
theorem C1_markRead_iff_send_choice (dec : ReviewDecision)
    (delivery : Except String Unit) (t : Ticket) :
    (reviewTicket dec delivery t).markedRead = dec.sendChoice := by
  cases hd : dec.sendChoice <;> simp [reviewTicket, hd]

/-- C2 (counterexample): when the outer call succeeds but the embedded payload
cannot be decoded, the reasoning string the code returns is
"Failed to parse API response", not the "response was not parseable" required
by the claim (the summary string likewise differs). -/
theorem C2_counterexample_parse_failure_strings :
    (analyze_email_with_xai "s" "b" (Except.ok none)).reasoning
        = some "Failed to parse API response"
    ∧ (analyze_email_with_xai "s" "b" (Except.ok none)).summary
        = some "Unable to summarize due to invalid response format"
    ∧ ("Failed to parse API response" ≠ "response was not parseable")
    ∧ ("Unable to summarize due to invalid response format" ≠ "unable to summarize") := by
  refine ⟨rfl, rfl, by decide, by decide⟩

/-- C2 (amended): the analysis operation is a total function of the call
outcome (no exception escapes its boundary); when the outer call succeeds but
the payload cannot be decoded it returns exactly Unknown /
"Failed to parse API response" / "Unable to summarize due to invalid response
format"; when the call itself fails with cause e it returns exactly Unknown /
"API error: " ++ e / "Unable to summarize due to API failure"; both failure
results are fully populated, and a decoded payload is returned unchanged. -/
theorem C2_analysis_degradation (subject body e : String) (d : JsonDict) :
    analyze_email_with_xai subject body (Except.error e)
        = { urgency := some "Unknown"
            reasoning := some ("API error: " ++ e)
            summary := some "Unable to summarize due to API failure" }
    ∧ analyze_email_with_xai subject body (Except.ok none)
        = { urgency := some "Unknown"
            reasoning := some "Failed to parse API response"
            summary := some "Unable to summarize due to invalid response format" }
    ∧ analyze_email_with_xai subject body (Except.ok (some d)) = d := by
  exact ⟨rfl, rfl, rfl⟩

/-- C7 (counterexample): a successful drafting call whose content is a pure
whitespace string is returned as the empty string by `content.strip()`,
refuting "on success the returned text is non-empty". -/
theorem C7_counterexample_empty_success :
    generate_response_with_xai "s" "b" (Except.ok " ") = "" := by
  decide

/-- C7 (amended): on any failure after retries the drafting operation returns
the fixed generic acknowledgment, which is non-empty; on success it returns
the stripped service content, which is empty exactly when the service returned
only whitespace. -/
theorem C7_draft_fallback (subject body e s : String) :
    generate_response_with_xai subject body (Except.error e) = fallbackResponse
    ∧ fallbackResponse ≠ ""
    ∧ generate_response_with_xai subject body (Except.ok s) = pyStrip s := by
  refine ⟨rfl, by decide, rfl⟩

/-- C9 (confirmed): when the operator edits the draft and then declines to
send, the operator text fully replaces the drafted response (the effect record
carries exactly the new text, never a merge), no send is attempted, and the
originating message is not marked read. -/
theorem C9_edit_then_decline (newText : String) (delivery : Except String Unit)
    (t : Ticket) :
    reviewTicket { editChoice := true, editText := newText, sendChoice := false }
        delivery t
      = { finalResponse := newText
          sendAttempted := false
          delivered := false
          markedRead := false } := by
  rfl

/-- C5 (confirmed): the sorted batch is ascending in the rank mapping
High 1 / Medium 2 / Low 3 / Unknown 4 (here for all index pairs, which
subsumes adjacent pairs), and the sort is stable: the subsequence of tickets
of any fixed urgency is exactly the one of the input batch, so ties keep
their relative fetch order. -/
theorem C5_sort_sorted_and_stable (l : List Ticket) :
    (∀ (i j : Fin (sortTickets l).length), i < j →
        urgency_order ((sortTickets l).get i).urgency
          ≤ urgency_order ((sortTickets l).get j).urgency)
    ∧ ∀ u : String,
        (sortTickets l).filter (fun x => x.urgency == u)
          = l.filter (fun x => x.urgency == u) := by
  constructor
  · intro i j hij
    exact List.pairwise_iff_get.mp (sortTickets_pairwise l) i j hij
  · exact fun u => filter_sortTickets u l

/-- C5 (witness): on the demo batch the first two sorted tickets are in
ascending rank and the Low tie keeps fetch order 1 before 4. -/
theorem C5_sort_witness :
    urgency_order ((sortTickets demoBatch).get ⟨0, by decide⟩).urgency
        ≤ urgency_order ((sortTickets demoBatch).get ⟨1, by decide⟩).urgency
    ∧ (sortTickets demoBatch).filter (fun x => x.urgency == "Low")
        = demoBatch.filter (fun x => x.urgency == "Low") := by
  constructor
  · exact (C5_sort_sorted_and_stable demoBatch).1 ⟨0, by decide⟩ ⟨1, by decide⟩
      (by decide)
  · exact (C5_sort_sorted_and_stable demoBatch).2 "Low"

/-- C6 (confirmed): body selection follows the priority policy of
`parse_email_content`: in a multi-part message the first `text/plain` part
wins and the scan stops there; if no `text/plain` part exists the last
`text/html` part is used after cleaning; a single-part message uses its
payload directly when `text/plain` and cleaned when `text/html`. -/
theorem C6_body_selection_policy (cleanHtml : String → String) :
    (∀ (parts : List MsgPart) (p : MsgPart),
        parts.find? (fun q => q.contentType == "text/plain") = some p →
        extractBody cleanHtml (MsgBody.multi parts) = p.payload)
    ∧ (∀ (parts : List MsgPart) (p : MsgPart),
        (∀ q ∈ parts, ¬ q.contentType = "text/plain") →
        lastHtml parts = some p →
        extractBody cleanHtml (MsgBody.multi parts) = cleanHtml p.payload)
    ∧ (∀ payload : String,
        extractBody cleanHtml (MsgBody.single "text/plain" payload) = payload)
    ∧ (∀ payload : String,
        extractBody cleanHtml (MsgBody.single "text/html" payload)
          = cleanHtml payload) := by
  refine ⟨?_, ?_, fun payload => rfl, fun payload => rfl⟩
  · intro parts p hfind
    exact scanParts_find_plain cleanHtml parts p "" hfind
  · intro parts p hnoplain hlast
    show scanParts cleanHtml parts "" = cleanHtml p.payload
    rw [scanParts_no_plain cleanHtml parts "" hnoplain]
    simp [lastHtmlOr, hlast]

/-- C6 (witness): in the demo multipart message the html part precedes the
plain part, and the plain part still wins. -/
theorem C6_body_selection_witness :
    extractBody id (MsgBody.multi demoParts) = "P" := by
  exact (C6_body_selection_policy id).1 demoParts
    { contentType := "text/plain", payload := "P" } (by decide)

/-- C10 (confirmed): the rank lookup is total with default 4, so a ticket
whose urgency string is none of High, Medium, Low, Unknown gets the same rank
as Unknown, sorting never faults, and in the sorted batch every ticket that
follows a rank-4 ticket is itself rank-4 — unexpected urgencies are ordered
last. -/
theorem C10_unexpected_urgency_ranked_last :
    (∀ u : String, u ≠ "High" → u ≠ "Medium" → u ≠ "Low" → u ≠ "Unknown" →
        urgency_order u = 4 ∧ urgency_order u = urgency_order "Unknown")
    ∧ ∀ l : List Ticket,
        (sortTickets l).Pairwise
          (fun a b => urgency_order a.urgency = 4 → urgency_order b.urgency = 4) := by
  constructor
  · intro u h1 h2 h3 h4
    constructor
    · simp [urgency_order, h1, h2, h3, h4]
    · simp [urgency_order, h1, h2, h3, h4]
  · intro l
    refine (sortTickets_pairwise l).imp ?_
    intro a b hab h4
    have hb := urgency_order_le_four b.urgency
    omega

/-- C10 (witness): "Critical" is not a known urgency, ranks 4 like Unknown,
and the demo batch sorts with this guarantee. -/
theorem C10_unexpected_urgency_witness :
    (urgency_order "Critical" = 4
      ∧ urgency_order "Critical" = urgency_order "Unknown")
    ∧ (sortTickets demoBatch).Pairwise
        (fun a b => urgency_order a.urgency = 4 → urgency_order b.urgency = 4) := by
  constructor
  · exact C10_unexpected_urgency_ranked_last.1 "Critical"
      (by decide) (by decide) (by decide) (by decide)
  · exact C10_unexpected_urgency_ranked_last.2 demoBatch

/-- C3 (counterexample): in `envCrash` the connection succeeds and both
messages fetch, but the first message has no Subject header, so parsing raises
and the uncaught exception aborts the whole batch — the second message is
never processed — refuting "any failure while processing an individual message
is isolated". -/
theorem C3_counterexample_parse_abort :
    runMain id envCrash
        = RunOutcome.crashed "TypeError: decode_header received None" 0 0
    ∧ envCrash.emailIds.length = 2 := by
  constructor
  · rfl
  · rfl

/-- C3 (amended): only a mailbox connection failure at startup is fatal with a
non-zero exit status, and failures of the remote analysis and drafting calls
are always isolated (the run still completes whatever their outcomes); but an
exception while fetching or parsing an individual message is NOT isolated — it
aborts the rest of the batch, as the counterexample shows. -/
theorem C3_fatal_only_connect (cleanHtml : String → String) (env : Env) :
    (∀ e : String, env.connectOutcome = Except.error e →
        runMain cleanHtml env = RunOutcome.fatalExit 1 ∧ (1 : Nat) ≠ 0)
    ∧ (env.connectOutcome = Except.ok () →
        (∀ id ∈ env.emailIds, stepOk env id = true) →
        isCompleted (runMain cleanHtml env) = true) := by
  constructor
  · intro e hce
    refine ⟨?_, by decide⟩
    unfold runMain
    rw [hce]
    rfl
  · intro hc h
    obtain ⟨⟨b, ts, effs, heq⟩, _⟩ := runMain_normal cleanHtml env hc h
    rw [heq]
    rfl

/-- C3 (witness): a failed login exits fatally, and a run whose every remote
call fails still completes. -/
theorem C3_fatal_only_connect_witness :
    runMain id envBadConnect = RunOutcome.fatalExit 1
    ∧ isCompleted (runMain id envAllFail) = true := by
  constructor
  · exact ((C3_fatal_only_connect id envBadConnect).1 "login refused" rfl).1
  · exact (C3_fatal_only_connect id envAllFail).2 rfl (by decide)

/-- C4 (counterexample): in `envCrash` both unread messages are fetched
successfully, yet the run produces zero tickets, because the first message
fails to parse and the uncaught exception abandons the batch — refuting "every
fetched unread message yields exactly one Ticket" in full generality. -/
theorem C4_counterexample_fetched_without_ticket :
    ticketsBuiltCount (runMain id envCrash) = 0
    ∧ envCrash.emailIds.length = 2
    ∧ envCrash.fetch "1" = Except.ok msgNoSubject
    ∧ envCrash.fetch "2" = Except.ok msgPlain := by
  refine ⟨rfl, rfl, rfl, rfl⟩

/-- C4 (amended): provided every message of the batch fetches and parses (a
fetch/parse exception instead aborts the run), the completed run holds exactly
one ticket per unread message, whatever the outcomes of the analysis and
drafting calls — including when every one of them fails. -/
theorem C4_ticket_count (cleanHtml : String → String) (env : Env)
    (hc : env.connectOutcome = Except.ok ())
    (hs : env.searchOk = true)
    (h : ∀ id ∈ env.emailIds, stepOk env id = true) :
    ticketCount (runMain cleanHtml env) = some env.emailIds.length :=
  (runMain_normal cleanHtml env hc h).2 hs

/-- C4 (witness): with both remote clients failing on every call, the run
still produces exactly two tickets for two unread messages. -/
theorem C4_ticket_count_witness :
    ticketCount (runMain id envAllFail) = some 2 := by
  have h := C4_ticket_count id envAllFail rfl rfl (by decide)
  exact h

/-- C8 (counterexample): in `envCrash` the session is established (connection
succeeded), but the parse exception escapes `main` before the final
`mail.logout()` — there is no `try/finally` — so the session is released zero
times, refuting "released exactly once on every path". -/
theorem C8_counterexample_crash_skips_logout :
    logoutCount (runMain id envCrash) = 0
    ∧ connect_to_email envCrash.connectOutcome = Except.ok () := by
  refine ⟨rfl, rfl⟩

/-- C8 (amended): the session is logged out exactly once on the
zero-unread-messages path (which prints the no-unread notice and builds no
tickets) and on every run whose per-message fetch/parse steps succeed —
whatever the analysis, drafting, operator and delivery outcomes; but a
fetch/parse exception skips the logout, as the counterexample shows. -/
theorem C8_logout_once (cleanHtml : String → String) (env : Env) :
    (env.connectOutcome = Except.ok () →
        (!env.searchOk || env.emailIds.isEmpty) = true →
        runMain cleanHtml env = RunOutcome.completed true [] [] 1)
    ∧ (env.connectOutcome = Except.ok () →
        (∀ id ∈ env.emailIds, stepOk env id = true) →
        logoutCount (runMain cleanHtml env) = 1) := by
  constructor
  · intro hc hcond
    unfold runMain
    rw [hc]
    simp only [connect_to_email]
    rw [if_pos hcond]
  · intro hc h
    obtain ⟨⟨b, ts, effs, heq⟩, _⟩ := runMain_normal cleanHtml env hc h
    rw [heq]
    rfl

/-- C8 (witness): the empty mailbox logs out once after printing the no-unread
notice with no tickets, and a run with every remote call failing also logs out
once. -/
theorem C8_logout_once_witness :
    runMain id envEmpty = RunOutcome.completed true [] [] 1
    ∧ logoutCount (runMain id envAllFail) = 1 := by
  constructor
  · exact (C8_logout_once id envEmpty).1 rfl rfl
  · exact (C8_logout_once id envAllFail).2 rfl (by decide)

end EmailParser
